import Mathlib

/-!
Shallow embedding of the versioning, execution-orchestration and
lineage-tracking engine of the NOVEM collaborative data-science platform
(Django apps `pipelines` and `datasets` under `src/backend/`), together
with proofs settling the frozen claims C1..C10.

Conventions used throughout:
* Django model rows become Lean structures; JSON fields become the `Json`
  inductive below (numbers restricted to integers, which covers every
  schema/config payload exercised by the claims).
* Machine integers are `Nat`/`Int` with explicit `% 2 ^ 32` where the
  SHA-256 rounds overflow.
* HTTP handlers become total functions returning `Except ApiError _`
  (or an explicit post-state), where `ApiError` carries the HTTP status
  the view attaches with `status=...`.  An `Except.error` result models
  the handler returning early, before any write, so the store is
  unchanged in that case.
-/

namespace Novem

/-- An error response produced by a view handler: the HTTP status code the
source attaches (`status.HTTP_400_BAD_REQUEST` = 400,
`HTTP_404_NOT_FOUND` = 404) plus the `error` message string. -/
structure ApiError where
  status : Nat
  error : String
  deriving Repr, DecidableEq

/-- Modelled from the spec (section 7), for comparison with the source's
actual statuses: the spec's `Conflict` error kind is "surfaced as a
409-equivalent". -/
def specConflictStatus : Nat := 409

/-- Modelled from the spec (section 7): `ValidationError` is surfaced
unmodified to the caller; Django REST framework surfaces it as HTTP 400,
which is also the status the views attach by hand. -/
def specValidationErrorStatus : Nat := 400

/-- JSON values as stored in Django `JSONField` columns (`Pipeline.config`,
`PipelineVersion.config_snapshot`, `DatasetVersion.schema`, ...).
Numbers are restricted to integers, which covers the configs and schemas
the claims quantify over. -/
inductive Json where
  | null : Json
  | bool : Bool → Json
  | num : Int → Json
  | str : String → Json
  | arr : List Json → Json
  | obj : List (String × Json) → Json
  deriving Inhabited

namespace Json

/-- Python truthiness of a JSON value (`if self.schema ...`): empty
containers, `""`, `0`, `False` and `None` are falsy. -/
def truthy : Json → Bool
  | .null => false
  | .bool b => b
  | .num n => n != 0
  | .str s => s != ""
  | .arr xs => !xs.isEmpty
  | .obj kvs => !kvs.isEmpty

/-- Dictionary lookup (`self.schema['columns']`); `none` on non-dicts and
missing keys (Python `'columns' in self.schema` for a dict). -/
def lookup : Json → String → Option Json
  | .obj kvs, k => (kvs.find? (fun kv => kv.1 == k)).map (fun kv => kv.2)
  | _, _ => none

/-- Python `len` on a JSON value, for the sized types; `none` where Python
would raise `TypeError`. -/
def size : Json → Option Nat
  | .arr xs => some xs.length
  | .obj kvs => some kvs.length
  | .str s => some s.length
  | _ => none

/-- Lexicographic `<=` on code-point lists — how Python compares the
`str` keys `sorted` ranks. -/
def charsLe : List Char → List Char → Bool
  | [], _ => true
  | _ :: _, [] => false
  | a :: as, b :: bs =>
    if a.toNat < b.toNat then true
    else if b.toNat < a.toNat then false
    else charsLe as bs

/-- Python string `<=` (code-point lexicographic). -/
def strLe (a b : String) : Bool :=
  charsLe a.data b.data

/-- Insert a key/value pair into a key-sorted association list, keeping it
sorted (stable: equal keys keep their relative order, as `sorted` in
CPython is stable). -/
def insertByKey (kv : String × Json) : List (String × Json) → List (String × Json)
  | [] => [kv]
  | kv2 :: rest =>
    if strLe kv.1 kv2.1 then kv :: kv2 :: rest
    else kv2 :: insertByKey kv rest

/-- Sort an association list by key (insertion sort, stable, mirroring
`sorted(d.items())` which `json.dumps(..., sort_keys=True)` performs). -/
def sortByKey : List (String × Json) → List (String × Json)
  | [] => []
  | kv :: rest => insertByKey kv (sortByKey rest)

/-- Recursively sort every object's keys.  `canon j` is the canonical form
whose plain serialization equals `json.dumps(j, sort_keys=True)`. -/
def canon : Json → Json
  | .null => .null
  | .bool b => .bool b
  | .num n => .num n
  | .str s => .str s
  | .arr xs => .arr (xs.attach.map (fun x => canon x.1))
  | .obj kvs => .obj (sortByKey (kvs.attach.map (fun kv => (kv.1.1, canon kv.1.2))))
termination_by j => sizeOf j
decreasing_by
  · have := List.sizeOf_lt_of_mem x.2
    simp_all
    omega
  · rcases kv with ⟨⟨k, v⟩, hm⟩
    have := List.sizeOf_lt_of_mem hm
    simp_all
    omega

mutual

/-- Structural equality of JSON values as booleans. -/
def beq : Json → Json → Bool
  | .null, .null => true
  | .bool a, .bool b => a == b
  | .num a, .num b => a == b
  | .str a, .str b => a == b
  | .arr xs, .arr ys => beqList xs ys
  | .obj xs, .obj ys => beqKVList xs ys
  | _, _ => false

/-- Elementwise `beq` on JSON arrays. -/
def beqList : List Json → List Json → Bool
  | [], [] => true
  | x :: xs, y :: ys => beq x y && beqList xs ys
  | _, _ => false

/-- Elementwise `beq` on object entry lists. -/
def beqKVList : List (String × Json) → List (String × Json) → Bool
  | [], [] => true
  | (k1, v1) :: xs, (k2, v2) :: ys => k1 == k2 && beq v1 v2 && beqKVList xs ys
  | _, _ => false

end

/-- Python `==` on JSON values: lists compare elementwise in order, dicts
compare as mappings — key order is irrelevant at every nesting level — so
it is structural equality of the canonical (recursively key-sorted)
forms. -/
def pyEq (a b : Json) : Bool :=
  beq (canon a) (canon b)

end Json

/-- Escape one character the way `json.dumps` does with its default
`ensure_ascii=True`: `"` and `\` get a backslash, the common control
characters get their short escapes, every other character below `0x20` or
above `0x7e` becomes `\uXXXX` (with a surrogate pair above `0xffff`). -/
def jsonEscapeChar (c : Char) : String :=
  if c = '"' then "\\\""
  else if c = '\\' then "\\\\"
  else if c = '\n' then "\\n"
  else if c = '\t' then "\\t"
  else if c = '\r' then "\\r"
  else if c = (Char.ofNat 8) then "\\b"
  else if c = (Char.ofNat 12) then "\\f"
  else if c.toNat < 0x20 ∨ c.toNat > 0x7e then
    if c.toNat ≤ 0xffff then
      "\\u" ++ String.mk ((List.range 4).map
        (fun i => Nat.digitChar ((c.toNat >>> (12 - 4 * i)) % 16)))
    else
      let v := c.toNat - 0x10000
      let hi := 0xd800 + (v >>> 10)
      let lo := 0xdc00 + (v % 1024)
      "\\u" ++ String.mk ((List.range 4).map
        (fun i => Nat.digitChar ((hi >>> (12 - 4 * i)) % 16)))
      ++ "\\u" ++ String.mk ((List.range 4).map
        (fun i => Nat.digitChar ((lo >>> (12 - 4 * i)) % 16)))
  else String.singleton c

/-- Serialize a JSON string literal as `json.dumps` does. -/
def jsonQuote (s : String) : String :=
  "\"" ++ String.join (s.data.map jsonEscapeChar) ++ "\""

/-- Intercalate with the `json.dumps` default item separator `", "`. -/
def joinComma : List String → String
  | [] => ""
  | [x] => x
  | x :: rest => x ++ ", " ++ joinComma rest

/-- Plain serialization of a JSON value with the `json.dumps` default
separators (`", "` between items, `": "` after a key), emitting object
keys in the order they appear.  `json.dumps(j, sort_keys=True)` is
`serialize (canon j)`. -/
def Json.serialize : Json → String
  | .null => "null"
  | .bool b => if b then "true" else "false"
  | .num n => toString n
  | .str s => jsonQuote s
  | .arr xs => "[" ++ joinComma (xs.attach.map (fun x => serialize x.1)) ++ "]"
  | .obj kvs => "\x7b" ++
      joinComma (kvs.attach.map (fun kv => jsonQuote kv.1.1 ++ ": " ++ serialize kv.1.2))
      ++ "\x7d"
termination_by j => sizeOf j
decreasing_by
  · have := List.sizeOf_lt_of_mem x.2
    simp_all
    omega
  · rcases kv with ⟨⟨k, v⟩, hm⟩
    have := List.sizeOf_lt_of_mem hm
    simp_all
    omega

/-- Mirrors `json.dumps(value, sort_keys=True)`: keys are emitted in sorted order
at every nesting level, which is the same as serializing the recursively
key-sorted canonical form. -/
def jsonDumpsSorted (j : Json) : String :=
  (Json.canon j).serialize

/-! ### SHA-256 (`hashlib.sha256(...).hexdigest()`)

A direct Nat-based implementation of FIPS 180-4, used by
`DatasetVersion.calculate_schema_hash` and `DatasetQuery.save`.
All 32-bit words are `Nat` reduced `% 2 ^ 32`. -/

/-- Right-rotation of a 32-bit word. -/
def rotr32 (n x : Nat) : Nat :=
  ((x >>> n) ||| (x <<< (32 - n))) % 2 ^ 32

/-- The 64 SHA-256 round constants. -/
def sha256K : List Nat :=
  [1116352408, 1899447441, 3049323471, 3921009573, 961987163,
   1508970993, 2453635748, 2870763221, 3624381080, 310598401,
   607225278, 1426881987, 1925078388, 2162078206, 2614888103,
   3248222580, 3835390401, 4022224774, 264347078, 604807628,
   770255983, 1249150122, 1555081692, 1996064986, 2554220882,
   2821834349, 2952996808, 3210313671, 3336571891, 3584528711,
   113926993, 338241895, 666307205, 773529912, 1294757372,
   1396182291, 1695183700, 1986661051, 2177026350, 2456956037,
   2730485921, 2820302411, 3259730800, 3345764771, 3516065817,
   3600352804, 4094571909, 275423344, 430227734, 506948616,
   659060556, 883997877, 958139571, 1322822218, 1537002063,
   1747873779, 1955562222, 2024104815, 2227730452, 2361852424,
   2428436474, 2756734187, 3204031479, 3329325298]

/-- The initial SHA-256 hash state. -/
def sha256H0 : List Nat :=
  [1779033703, 3144134277, 1013904242, 2773480762,
   1359893119, 2600822924, 528734635, 1541459225]

/-- Pad a byte message per FIPS 180-4: append `0x80`, zero bytes up to 56
mod 64, then the bit length as 8 big-endian bytes. -/
def sha256Pad (msg : List Nat) : List Nat :=
  let bitLen := 8 * msg.length
  let padZeros := (55 + 64 - msg.length % 64) % 64
  msg ++ [0x80] ++ List.replicate padZeros 0 ++
    (List.range 8).map (fun i => (bitLen >>> (56 - 8 * i)) % 256)

/-- Split a list into chunks of 64 elements. -/
def chunks64 : List Nat → List (List Nat)
  | [] => []
  | x :: rest => (x :: rest).take 64 :: chunks64 ((x :: rest).drop 64)
termination_by l => l.length
decreasing_by simp [List.length_drop]; omega

/-- Big-endian 32-bit words of a 64-byte chunk. -/
def chunkWords (chunk : List Nat) : List Nat :=
  (List.range 16).map (fun i =>
    (chunk.getD (4 * i) 0) <<< 24 ||| (chunk.getD (4 * i + 1) 0) <<< 16 |||
    (chunk.getD (4 * i + 2) 0) <<< 8 ||| chunk.getD (4 * i + 3) 0)

/-- The SHA-256 message schedule for one chunk. -/
def sha256W (ws : List Nat) : Nat → Nat
  | i =>
    if h : i < 16 then ws.getD i 0
    else
      let s0 := rotr32 7 (sha256W ws (i - 15)) ^^^ rotr32 18 (sha256W ws (i - 15)) ^^^
        (sha256W ws (i - 15) >>> 3)
      let s1 := rotr32 17 (sha256W ws (i - 2)) ^^^ rotr32 19 (sha256W ws (i - 2)) ^^^
        (sha256W ws (i - 2) >>> 10)
      (sha256W ws (i - 16) + s0 + sha256W ws (i - 7) + s1) % 2 ^ 32
termination_by i => i
decreasing_by all_goals omega

/-- One round of the SHA-256 compression function. -/
def sha256Round (ws : List Nat) (st : List Nat) (i : Nat) : List Nat :=
  match st with
  | [a, b, c, d, e, f, g, h] =>
    let s1 := rotr32 6 e ^^^ rotr32 11 e ^^^ rotr32 25 e
    let ch := (e &&& f) ^^^ ((2 ^ 32 - 1 - e) &&& g)
    let t1 := (h + s1 + ch + sha256K.getD i 0 + sha256W ws i) % 2 ^ 32
    let s0 := rotr32 2 a ^^^ rotr32 13 a ^^^ rotr32 22 a
    let mj := (a &&& b) ^^^ (a &&& c) ^^^ (b &&& c)
    let t2 := (s0 + mj) % 2 ^ 32
    [(t1 + t2) % 2 ^ 32, a, b, c, (d + t1) % 2 ^ 32, e, f, g]
  | st => st

/-- Process one 64-byte chunk, updating the running hash state. -/
def sha256Chunk (hs : List Nat) (chunk : List Nat) : List Nat :=
  let ws := chunkWords chunk
  let fin := (List.range 64).foldl (sha256Round ws) hs
  (hs.zip fin).map (fun p => (p.1 + p.2) % 2 ^ 32)

/-- A 32-bit word as 8 lowercase hex digits. -/
def hex8 (x : Nat) : String :=
  String.mk ((List.range 8).map (fun i => Nat.digitChar ((x >>> (28 - 4 * i)) % 16)))

/-- SHA-256 of a byte list as a lowercase hex string, mirroring
`hashlib.sha256(data).hexdigest()`. -/
def sha256Hex (msg : List Nat) : String :=
  let final := (chunks64 (sha256Pad msg)).foldl sha256Chunk sha256H0
  String.join (final.map hex8)

/-- UTF-8 bytes of a string (`str.encode()` in Python). -/
def strBytes (s : String) : List Nat :=
  s.toUTF8.toList.map (fun b => b.toNat)

end Novem

namespace Novem

/-! ### Pipelines (`src/backend/pipelines/models.py`) -/

/-- Mirrors `Pipeline.EXECUTION_MODES`. -/
inductive ExecutionMode where
  | manual
  | scheduled
  | onDemand
  deriving Repr, DecidableEq

/-- Mirrors `Pipeline.STATES` (the lifecycle state machine). -/
inductive PipelineState where
  | draft
  | validating
  | ready
  | running
  | completed
  | failed
  deriving Repr, DecidableEq

/-- Mirrors `PipelineExecution.STATES` (the per-run state machine). -/
inductive ExecutionState where
  | queued
  | running
  | completed
  | failed
  | cancelled
  deriving Repr, DecidableEq

/-- States `queued` and `running` are non-terminal;
`completed`, `failed` and `cancelled` are terminal. -/
def ExecutionState.isTerminal : ExecutionState → Bool
  | .queued => false
  | .running => false
  | .completed => true
  | .failed => true
  | .cancelled => true

/-- Mirrors `PipelineExecution.TRIGGER_TYPES`. -/
inductive TriggerType where
  | manual
  | scheduled
  | api
  deriving Repr, DecidableEq

/-- The `Pipeline` model row.  Cross-table references (`project`,
`data_source`, `created_by`) are opaque numeric ids; audit metadata not
touched by any claim (`description`, timestamps) is omitted. -/
structure Pipeline where
  name : String
  project : Nat
  dataSource : Nat
  targetDatasetName : String
  executionMode : ExecutionMode
  scheduleExpression : String
  config : Json
  estimatedMemoryMb : Option Nat
  estimatedCpuPercent : Option Nat
  estimatedDurationSeconds : Option Nat
  estimatedRowCount : Option Nat
  state : PipelineState
  lastRunAt : Option Nat
  lastRunStatus : String
  nextScheduledRun : Option Nat
  currentVersion : Nat
  createdBy : Option Nat
  isDeleted : Bool
  deletedAt : Option Nat

/-- The `PipelineVersion` model row (immutable snapshot). -/
structure PipelineVersion where
  versionNumber : Nat
  configSnapshot : Json
  createdBy : Option Nat
  changeDescription : String

/-- The `PipelineExecution` model row.  Result-metric fields not touched
by any claim are omitted; `pipelineVersion` is the (nullable) referenced
version number. -/
structure PipelineExecution where
  state : ExecutionState
  triggerType : TriggerType
  triggeredBy : Option Nat
  pipelineVersion : Option Nat

/-- One pipeline together with its owned `PipelineVersion` and
`PipelineExecution` rows — the slice of the durable store that the
pipeline view set reads and writes. -/
structure PipeStore where
  pipeline : Pipeline
  versions : List PipelineVersion
  executions : List PipelineExecution

/-- Mirrors `pipeline.versions.get(version_number=pipeline.current_version)`:
resolve the current version row, `none` when `DoesNotExist`. -/
def PipeStore.findCurrentVersion (s : PipeStore) : Option PipelineVersion :=
  s.versions.find? (fun v => v.versionNumber == s.pipeline.currentVersion)

/-- Mirrors `PipelineViewSet.execute` (`src/backend/pipelines/views.py`, lines
58-104): rejects with HTTP 400 when the pipeline state is `running` or not
one of `ready`/`completed`/`failed`; rejects with HTTP 400 when no
`PipelineVersion` row carries the current version number; otherwise
creates one `queued` execution bound to the current version, sets the
pipeline state to `running`, and returns the execution.  On `.error` the
handler has returned before any write, so the store is unchanged. -/
def execute (s : PipeStore) (triggerType : TriggerType) (userId : Option Nat) :
    Except ApiError (PipeStore × PipelineExecution) :=
  if s.pipeline.state = .running then
    .error { status := 400, error := "Pipeline is already running" }
  else if ¬(s.pipeline.state = .ready ∨ s.pipeline.state = .completed ∨
      s.pipeline.state = .failed) then
    .error { status := 400, error := "Pipeline cannot be executed in this state" }
  else
    match s.findCurrentVersion with
    | none => .error { status := 400, error := "Pipeline has no valid version" }
    | some v =>
      let e : PipelineExecution :=
        { state := .queued, triggerType := triggerType, triggeredBy := userId,
          pipelineVersion := some v.versionNumber }
      .ok ({ s with
              executions := e :: s.executions,
              pipeline := { s.pipeline with state := .running } }, e)

/-- Mirrors `PipelineViewSet.validate`: unconditionally sets the pipeline state to
`validating` and saves. -/
def validateAction (s : PipeStore) : PipeStore :=
  { s with pipeline := { s.pipeline with state := .validating } }

/-- Mirrors `PipelineViewSet.estimate_resources`: stores the (mock) resource
estimates on the pipeline row; nothing else changes. -/
def estimateResources (s : PipeStore) : PipeStore :=
  { s with pipeline := { s.pipeline with
      estimatedMemoryMb := some 512,
      estimatedCpuPercent := some 40,
      estimatedDurationSeconds := some 120,
      estimatedRowCount := some 10000 } }

/-- The writable field set of a `PipelineSerializer` payload
(`validated_data`): `state`, `current_version`, `is_deleted`, the run
bookkeeping fields and the timestamps are declared `read_only` and can
never appear here.  `none` means the key is absent from the payload. -/
structure PipelineInput where
  name : Option String
  project : Option Nat
  dataSource : Option Nat
  targetDatasetName : Option String
  executionMode : Option ExecutionMode
  scheduleExpression : Option String
  config : Option Json
  nextScheduledRun : Option (Option Nat)

/-- Python `not data.get('schedule_expression')`: the key is absent or its
value is the empty string. -/
def scheduleMissing : Option String → Bool
  | none => true
  | some s => s == ""

/-- Mirrors `PipelineSerializer.validate`: rejects when the payload says
`execution_mode = scheduled` but supplies no (or an empty) schedule
expression. -/
def pipelineInputValid (d : PipelineInput) : Bool :=
  !(d.executionMode == some .scheduled && scheduleMissing d.scheduleExpression)

/-- Apply a validated payload to a pipeline row
(`for attr, value in validated_data.items(): setattr(instance, attr, value)`). -/
def applyInput (p : Pipeline) (d : PipelineInput) : Pipeline :=
  { p with
    name := d.name.getD p.name,
    project := d.project.getD p.project,
    dataSource := d.dataSource.getD p.dataSource,
    targetDatasetName := d.targetDatasetName.getD p.targetDatasetName,
    executionMode := d.executionMode.getD p.executionMode,
    scheduleExpression := d.scheduleExpression.getD p.scheduleExpression,
    config := d.config.getD p.config,
    nextScheduledRun := d.nextScheduledRun.getD p.nextScheduledRun }

/-- Mirrors `PipelineSerializer.create` plus `PipelineSerializer.validate`
(`src/backend/pipelines/serializers.py`, lines 103-127): validation fails
with a DRF `ValidationError` (HTTP 400) when the mode is `scheduled`
without a schedule expression; otherwise a new `Pipeline` row is created
(model defaults: state `draft`, `current_version` 1, not deleted, config
`{}` when absent) together with the initial `PipelineVersion` numbered 1
snapshotting the given config. -/
def pipelineCreate (d : PipelineInput) (userId : Option Nat) :
    Except ApiError PipeStore :=
  if ¬pipelineInputValid d then
    .error { status := 400,
             error := "Schedule expression is required for scheduled pipelines" }
  else
    .ok { pipeline :=
            { name := d.name.getD "",
              project := d.project.getD 0,
              dataSource := d.dataSource.getD 0,
              targetDatasetName := d.targetDatasetName.getD "",
              executionMode := d.executionMode.getD .manual,
              scheduleExpression := d.scheduleExpression.getD "",
              config := d.config.getD (Json.obj []),
              estimatedMemoryMb := none,
              estimatedCpuPercent := none,
              estimatedDurationSeconds := none,
              estimatedRowCount := none,
              state := .draft,
              lastRunAt := none,
              lastRunStatus := "",
              nextScheduledRun := d.nextScheduledRun.getD none,
              currentVersion := 1,
              createdBy := userId,
              isDeleted := false,
              deletedAt := none },
          versions :=
            [{ versionNumber := 1,
               configSnapshot := d.config.getD (Json.obj []),
               createdBy := userId,
               changeDescription := "Initial version" }],
          executions := [] }

/-- Mirrors `PipelineSerializer.update` (`src/backend/pipelines/serializers.py`,
lines 129-149): `config_changed` is decided first by Python `!=` against
the current config; all payload fields are then applied; if the config
changed, `current_version` is incremented and a new `PipelineVersion` row
with that number snapshots the new config. -/
def pipelineUpdate (s : PipeStore) (d : PipelineInput) (userId : Option Nat) :
    PipeStore :=
  let configChanged :=
    match d.config with
    | some c => !Json.pyEq c s.pipeline.config
    | none => false
  let p := applyInput s.pipeline d
  if configChanged then
    { s with
      pipeline := { p with currentVersion := p.currentVersion + 1 },
      versions :=
        { versionNumber := p.currentVersion + 1,
          configSnapshot := d.config.getD (Json.obj []),
          createdBy := userId,
          changeDescription := "Configuration updated" } :: s.versions }
  else
    { s with pipeline := p }

/-- The DRF `ModelViewSet` default `destroy`, which `PipelineViewSet`
inherits unchanged: `perform_destroy(instance)` is `instance.delete()`, a
hard delete of the pipeline row; the `CASCADE` foreign keys on
`PipelineVersion` and `PipelineExecution` remove the whole history with
it.  The result `none` is the store with no surviving rows.  No state
check of any kind precedes the delete, and `is_deleted`/`deleted_at` are
never written. -/
def pipelineDestroy (_ : PipeStore) : Except ApiError (Option PipeStore) :=
  .ok none

end Novem

namespace Novem

/-- Mirrors `PipelineViewSet.get_queryset`: pipelines of the caller's projects,
never the soft-deleted ones, optionally narrowed by the `project` and
`state` query parameters. -/
def getQueryset (db : List Pipeline) (userProjects : List Nat)
    (projectParam : Option Nat) (stateParam : Option PipelineState) :
    List Pipeline :=
  let q := db.filter (fun p => userProjects.contains p.project && !p.isDeleted)
  let q := match projectParam with
    | some pid => q.filter (fun p => p.project == pid)
    | none => q
  match stateParam with
  | some st => q.filter (fun p => p.state == st)
  | none => q

/-- Mirrors `PipelineViewSet.scheduled` (`src/backend/pipelines/views.py`, lines
179-192): a GET endpoint filtering the queryset down to
`execution_mode = scheduled`, `state = ready`,
`next_scheduled_run <= now` (Django `__lte`, which never matches a NULL
`next_scheduled_run`).  The pair returned is (response list, post-state
of the pipeline table): the handler only reads, so the post-state is the
table it was given. -/
def scheduledAction (db : List Pipeline) (userProjects : List Nat)
    (projectParam : Option Nat) (stateParam : Option PipelineState)
    (now : Nat) : List Pipeline × List Pipeline :=
  ((getQueryset db userProjects projectParam stateParam).filter
      (fun p => p.executionMode == ExecutionMode.scheduled &&
        p.state == PipelineState.ready &&
        match p.nextScheduledRun with
        | some t => t ≤ now
        | none => false),
    db)

/-! ### Datasets (`src/backend/datasets/models.py`) -/

/-- Mirrors `DatasetVersion.STATES`. -/
inductive DatasetVersionState where
  | creating
  | ready
  | failed
  deriving Repr, DecidableEq

/-- The `Dataset` model row (audit metadata omitted). -/
structure Dataset where
  name : String
  project : Nat
  currentVersion : Nat
  isDeleted : Bool

/-- The `DatasetVersion` model row.  The quality/profiling metric fields
not touched by any claim are omitted. -/
structure DatasetVersion where
  versionNumber : Nat
  state : DatasetVersionState
  schema : Json
  schemaHash : String
  rowCount : Nat
  columnCount : Nat
  storageSizeBytes : Nat
  storageTableName : String
  changeDescription : String

/-- Mirrors `DatasetVersion.calculate_schema_hash`
(`src/backend/datasets/models.py`, lines 168-171):
`hashlib.sha256(json.dumps(self.schema, sort_keys=True).encode()).hexdigest()`. -/
def DatasetVersion.calculate_schema_hash (v : DatasetVersion) : String :=
  sha256Hex (strBytes (jsonDumpsSorted v.schema))

/-- Mirrors `DatasetVersion.save` (`src/backend/datasets/models.py`, lines
173-182): computes the schema hash only when the schema is truthy and no
hash is stored yet, then refreshes `column_count` from
`len(self.schema['columns'])` when the schema has a `columns` key
(a non-sized value there would raise `TypeError` in Python; the claims
never exercise that). -/
def DatasetVersion.save (v : DatasetVersion) : DatasetVersion :=
  let v :=
    if v.schema.truthy && v.schemaHash == "" then
      { v with schemaHash := v.calculate_schema_hash }
    else v
  if v.schema.truthy then
    match v.schema.lookup "columns" with
    | some c =>
      match c.size with
      | some n => { v with columnCount := n }
      | none => v
    | none => v
  else v

/-- The `DatasetQuery` audit row. -/
structure DatasetQuery where
  versionNumber : Nat
  querySql : String
  queryHash : String
  executedBy : Option Nat
  executionTimeMs : Option Nat
  rowsReturned : Option Nat
  success : Bool
  errorMessage : String

/-- Mirrors `DatasetQuery.save` (`src/backend/datasets/models.py`, lines
287-293): fills `query_hash` with the SHA-256 of the SQL text when it is
still empty. -/
def DatasetQuery.save (q : DatasetQuery) : DatasetQuery :=
  if q.querySql != "" && q.queryHash == "" then
    { q with queryHash := sha256Hex (strBytes q.querySql) }
  else q

/-- One dataset together with its owned `DatasetVersion` and
`DatasetQuery` rows. -/
structure DatasetStore where
  dataset : Dataset
  versions : List DatasetVersion
  queries : List DatasetQuery

/-- Mirrors `DatasetViewSet.delete_version` (`src/backend/datasets/views.py`,
lines 286-319): 404 when no row has the requested number; HTTP 400 when
the dataset has exactly one version row or the requested number is the
dataset's `current_version`; otherwise the found row is deleted
(`version.delete()` — despite the docstring this removes the row) and
nothing else changes.  On `.error` the handler returned before the
delete, so the store is unchanged. -/
def deleteVersion (s : DatasetStore) (versionNumber : Nat) :
    Except ApiError DatasetStore :=
  match s.versions.find? (fun v => v.versionNumber == versionNumber) with
  | none => .error { status := 404, error := "Version not found" }
  | some v =>
    if s.versions.length = 1 then
      .error { status := 400, error := "Cannot delete the only version" }
    else if v.versionNumber = s.dataset.currentVersion then
      .error { status := 400,
               error := "Cannot delete the current version. Set a different version as current first." }
    else
      .ok { s with
            versions := s.versions.eraseP (fun w => w.versionNumber == versionNumber) }

/-- The rows/metrics payload the mocked compute engine returns inside
`DatasetViewSet.query`. -/
structure QueryResult where
  columns : List String
  rows : List (List Json)
  rowCount : Nat
  executionTimeMs : Nat

/-- The mock result hard-coded in `DatasetViewSet.query`. -/
def mockQueryResult : QueryResult :=
  { columns := ["id", "name", "age"],
    rows := [[Json.num 1, Json.str "Alice", Json.num 30],
             [Json.num 2, Json.str "Bob", Json.num 25]],
    rowCount := 2,
    executionTimeMs := 45 }

/-- Python `not query_sql` on the request payload: key absent, `None`, or
empty string. -/
def sqlMissing : Option String → Bool
  | none => true
  | some s => s == ""

/-- Mirrors `DatasetViewSet.query` (`src/backend/datasets/views.py`, lines
117-175): resolves the version parameter (defaulting to the dataset's
`current_version`), rejects missing SQL (HTTP 400), a missing version row
(HTTP 404) and a version whose state is not `ready` (HTTP 400), and only
then runs the query and appends a `DatasetQuery` audit row.  The first
component of the result is the post-state of the store: on every error
branch the handler returned before creating the audit row, so it is the
store unchanged. -/
def queryAction (s : DatasetStore) (versionParam : Option Nat)
    (querySql : Option String) (userId : Option Nat) :
    DatasetStore × Except ApiError QueryResult :=
  let versionNumber := versionParam.getD s.dataset.currentVersion
  if sqlMissing querySql then
    (s, .error { status := 400, error := "Query SQL is required" })
  else
    match s.versions.find? (fun v => v.versionNumber == versionNumber) with
    | none => (s, .error { status := 404, error := "Version not found" })
    | some v =>
      if v.state ≠ .ready then
        (s, .error { status := 400, error := "Dataset version is not ready" })
      else
        let result := mockQueryResult
        let logRow := DatasetQuery.save
          { versionNumber := v.versionNumber,
            querySql := querySql.getD "",
            queryHash := "",
            executedBy := userId,
            executionTimeMs := some result.executionTimeMs,
            rowsReturned := some result.rowCount,
            success := true,
            errorMessage := "" }
        ({ s with queries := logRow :: s.queries }, .ok result)

/-! ### Lineage (`src/backend/datasets/models.py` lines 185-234,
`src/backend/datasets/serializers.py` lines 5-24) -/

/-- A `DatasetLineage` row: three independently nullable upstream
references next to the `source_type` discriminator, exactly as the model
declares them. -/
structure DatasetLineage where
  sourceType : String
  sourceDataSource : Option Nat
  sourcePipeline : Option Nat
  sourceDatasetVersion : Option Nat
  transformationDetails : Json

/-- A lineage write payload as `DatasetLineageSerializer` accepts it: the
three upstream references and the transformation details are all
optional. -/
structure LineageInput where
  sourceType : String
  sourceDataSource : Option Nat
  sourcePipeline : Option Nat
  sourceDatasetVersion : Option Nat
  transformationDetails : Option Json

/-- The validation `DatasetLineageSerializer` actually performs on a
write: the generated field validators.  `source_type` must be one of the
model's `LINEAGE_TYPES` choices; the three upstream reference fields are
`null=True, blank=True`, hence optional and unconstrained; the serializer
declares no `validate` method and the model no `clean`, so no cross-field
check relates the populated references to `source_type`. -/
def lineageValid (i : LineageInput) : Bool :=
  ["source", "pipeline", "dataset"].contains i.sourceType

/-- Recording a lineage edge through `DatasetLineageSerializer`:
`is_valid()` enforces only the field validators above, then `save()`
copies the payload into a `DatasetLineage` row (`transformation_details`
defaults to `{}`). -/
def recordEdge (i : LineageInput) : Except ApiError DatasetLineage :=
  if lineageValid i then
    .ok { sourceType := i.sourceType,
          sourceDataSource := i.sourceDataSource,
          sourcePipeline := i.sourcePipeline,
          sourceDatasetVersion := i.sourceDatasetVersion,
          transformationDetails := i.transformationDetails.getD (Json.obj []) }
  else
    .error { status := 400, error := "source_type is not a valid choice" }

end Novem

namespace Novem

/-! ### The single-active-execution invariant (claim C1) -/

/-- Number of executions of the pipeline currently in a non-terminal
state. -/
def nonTerminalCount (s : PipeStore) : Nat :=
  s.executions.countP (fun e => !e.state.isTerminal)

/-- The invariant the execute guard maintains: at most one non-terminal
execution exists, and while one exists the pipeline state is outside
`{ready, completed, failed}` (it is `running` right after a trigger, or
`validating` if the validate action ran meanwhile), which is exactly what
makes the execute guard reject a second trigger. -/
def PipeInv (s : PipeStore) : Prop :=
  nonTerminalCount s ≤ 1 ∧
  ∀ e ∈ s.executions, e.state.isTerminal = false →
    ¬(s.pipeline.state = .ready ∨ s.pipeline.state = .completed ∨
      s.pipeline.state = .failed)

/-- One step of any state-changing operation `PipelineViewSet` and
`PipelineSerializer` expose on a live pipeline: a successful or rejected
execute, the validate action, a serializer update, and the resource
estimation.  (The inherited destroy removes every row and is treated with
claim C7; no operation in the source ever mutates an execution row.) -/
inductive Step : PipeStore → PipeStore → Prop where
  | execOk {s s' : PipeStore} (t : TriggerType) (u : Option Nat)
      (e : PipelineExecution) (h : execute s t u = .ok (s', e)) : Step s s'
  | execErr {s : PipeStore} (t : TriggerType) (u : Option Nat)
      (err : ApiError) (h : execute s t u = .error err) : Step s s
  | validate (s : PipeStore) : Step s (validateAction s)
  | update (s : PipeStore) (d : PipelineInput) (u : Option Nat) :
      Step s (pipelineUpdate s d u)
  | estimate (s : PipeStore) : Step s (estimateResources s)

/-! ### Concrete rows for witnesses and counterexamples -/

/-- A payload with every optional field absent. -/
def PipelineInput.empty : PipelineInput :=
  { name := none, project := none, dataSource := none,
    targetDatasetName := none, executionMode := none,
    scheduleExpression := none, config := none, nextScheduledRun := none }

/-- A small transform config. -/
def configA : Json :=
  Json.obj [("a", Json.num 1), ("b", Json.num 2)]

/-- The same mapping as `configA` with its keys in the other order. -/
def configAReordered : Json :=
  Json.obj [("b", Json.num 2), ("a", Json.num 1)]

/-- A genuinely different config. -/
def configB : Json :=
  Json.obj [("a", Json.num 1), ("b", Json.num 3)]

/-- A ready pipeline at version 1. -/
def pipelineReady : Pipeline :=
  { name := "p", project := 1, dataSource := 1, targetDatasetName := "t",
    executionMode := .manual, scheduleExpression := "", config := configA,
    estimatedMemoryMb := none, estimatedCpuPercent := none,
    estimatedDurationSeconds := none, estimatedRowCount := none,
    state := .ready, lastRunAt := none, lastRunStatus := "",
    nextScheduledRun := none, currentVersion := 1, createdBy := some 1,
    isDeleted := false, deletedAt := none }

/-- Version row 1 of `pipelineReady`. -/
def versionOne : PipelineVersion :=
  { versionNumber := 1, configSnapshot := configA, createdBy := some 1,
    changeDescription := "Initial version" }

/-- A ready pipeline with its initial version and no executions. -/
def storeReady : PipeStore :=
  { pipeline := pipelineReady, versions := [versionOne], executions := [] }

/-- The execution a manual trigger on `storeReady` creates. -/
def execQueued : PipelineExecution :=
  { state := .queued, triggerType := .manual, triggeredBy := some 1,
    pipelineVersion := some 1 }

/-- The store `storeReady` right after that trigger: state `running`, one queued
execution. -/
def storeRunning : PipeStore :=
  { pipeline := { pipelineReady with state := .running },
    versions := [versionOne], executions := [execQueued] }

/-- A dataset whose current version is 1. -/
def datasetCurrentOne : Dataset :=
  { name := "d", project := 1, currentVersion := 1, isDeleted := false }

/-- A simple two-column schema. -/
def schemaA : Json :=
  Json.obj [("columns", Json.arr
    [Json.obj [("name", Json.str "id"), ("type", Json.str "INTEGER")],
     Json.obj [("name", Json.str "name"), ("type", Json.str "VARCHAR")]])]

/-- Same as `schemaA` with every object's keys written in the other order. -/
def schemaAReordered : Json :=
  Json.obj [("columns", Json.arr
    [Json.obj [("type", Json.str "INTEGER"), ("name", Json.str "id")],
     Json.obj [("type", Json.str "VARCHAR"), ("name", Json.str "name")]])]

/-- A ready dataset version numbered 1. -/
def dvOne : DatasetVersion :=
  { versionNumber := 1, state := .ready, schema := schemaA,
    schemaHash := "", rowCount := 0, columnCount := 2,
    storageSizeBytes := 0, storageTableName := "t1", changeDescription := "" }

/-- A ready dataset version numbered 2. -/
def dvTwo : DatasetVersion :=
  { versionNumber := 2, state := .ready, schema := schemaA,
    schemaHash := "", rowCount := 0, columnCount := 2,
    storageSizeBytes := 0, storageTableName := "t2", changeDescription := "" }

/-- A version still materializing. -/
def dvCreating : DatasetVersion :=
  { versionNumber := 1, state := .creating, schema := schemaA,
    schemaHash := "", rowCount := 0, columnCount := 2,
    storageSizeBytes := 0, storageTableName := "t1", changeDescription := "" }

/-- A dataset holding only version 1 (its sole, current version). -/
def dstoreSole : DatasetStore :=
  { dataset := datasetCurrentOne, versions := [dvOne], queries := [] }

/-- A dataset holding versions 1 (current) and 2. -/
def dstoreTwo : DatasetStore :=
  { dataset := datasetCurrentOne, versions := [dvOne, dvTwo], queries := [] }

/-- A dataset whose sole version is still `creating`. -/
def dstoreCreating : DatasetStore :=
  { dataset := datasetCurrentOne, versions := [dvCreating], queries := [] }

/-- The lineage payload of the C8 scenario: `kind=pipeline` with
`source_pipeline` unset. -/
def lineagePipelineUnset : LineageInput :=
  { sourceType := "pipeline", sourceDataSource := none,
    sourcePipeline := none, sourceDatasetVersion := none,
    transformationDetails := none }

/-- A scheduled pipeline due at time 50. -/
def pipelineDue : Pipeline :=
  { pipelineReady with
    executionMode := .scheduled,
    scheduleExpression := "0 * * * *", nextScheduledRun := some 50 }

/-- A manual pipeline, never selected by the scheduler. -/
def pipelineManual : Pipeline :=
  { pipelineReady with name := "q" }

end Novem

namespace Novem

/-- A creation payload declaring `scheduled` mode without a schedule
expression. -/
def inputSchedNoExpr : PipelineInput :=
  { PipelineInput.empty with executionMode := some .scheduled }

/-- A well-formed creation payload. -/
def inputValidCreate : PipelineInput :=
  { PipelineInput.empty with name := some "p", config := some configA }

/-- Copy of `dvOne` with a fingerprint already stored. -/
def dvHashed : DatasetVersion :=
  { dvOne with schemaHash := "abc123" }

/-- Copy of `dvOne` with the same schema written with reordered keys. -/
def dvOneReordered : DatasetVersion :=
  { dvOne with schema := schemaAReordered }

/-! ### Theorems -/

/-- Destructuring a successful trigger: `execute` returns `.ok` only when
the pipeline state was in `{ready, completed, failed}`, and then the
post-store is the input store with one queued execution prepended and the
pipeline state set to `running`. -/
theorem execute_eq_ok {s : PipeStore} {t : TriggerType} {u : Option Nat}
    {s' : PipeStore} {e : PipelineExecution}
    (h : execute s t u = .ok (s', e)) :
    (s.pipeline.state = .ready ∨ s.pipeline.state = .completed ∨
      s.pipeline.state = .failed) ∧
    e.state = .queued ∧
    s' = { s with
            executions := e :: s.executions,
            pipeline := { s.pipeline with state := .running } } := by
  unfold execute at h
  split at h
  · simp at h
  · split at h
    · simp at h
    · rename_i h1 h2
      rw [not_not] at h2
      cases hfv : s.findCurrentVersion with
      | none => rw [hfv] at h; simp at h
      | some v =>
        rw [hfv] at h
        simp only [Except.ok.injEq, Prod.mk.injEq] at h
        obtain ⟨hs', he⟩ := h
        subst hs'
        subst he
        exact ⟨h2, rfl, rfl⟩

/-- A serializer update never changes the pipeline lifecycle state or the
execution rows (`state` is `read_only`, and the update path only writes
`Pipeline` and `PipelineVersion` rows). -/
theorem pipelineUpdate_state_executions (s : PipeStore) (d : PipelineInput)
    (u : Option Nat) :
    (pipelineUpdate s d u).pipeline.state = s.pipeline.state ∧
    (pipelineUpdate s d u).executions = s.executions := by
  cases hc : d.config with
  | none => simp [pipelineUpdate, hc, applyInput]
  | some c =>
    cases hp : Json.pyEq c s.pipeline.config <;>
      simp [pipelineUpdate, hc, hp, applyInput]

/-- C2.  For an existing, non-deleted pipeline, one `updateConfig` call
(`PipelineSerializer.update`): with the config key absent or its value
Python-equal to the current config, no `PipelineVersion` row is created
and `current_version` stays; with a different config, exactly one new
version row numbered `current_version + 1` snapshotting the new config is
prepended and `current_version` advances by exactly 1 — so over any call
sequence version numbers grow strictly by 1 exactly when the config
changes.  (Version rows are immutable here: the old rows reappear
untouched behind the new one.) -/
theorem updateConfig_versioning (s : PipeStore) (d : PipelineInput)
    (u : Option Nat) (_hnd : s.pipeline.isDeleted = false) :
    (∀ c, d.config = some c → Json.pyEq c s.pipeline.config = true →
      (pipelineUpdate s d u).versions = s.versions ∧
      (pipelineUpdate s d u).pipeline.currentVersion =
        s.pipeline.currentVersion) ∧
    (d.config = none →
      (pipelineUpdate s d u).versions = s.versions ∧
      (pipelineUpdate s d u).pipeline.currentVersion =
        s.pipeline.currentVersion) ∧
    (∀ c, d.config = some c → Json.pyEq c s.pipeline.config = false →
      (pipelineUpdate s d u).pipeline.currentVersion =
        s.pipeline.currentVersion + 1 ∧
      (pipelineUpdate s d u).versions =
        { versionNumber := s.pipeline.currentVersion + 1,
          configSnapshot := c,
          createdBy := u,
          changeDescription := "Configuration updated" } :: s.versions) := by
  refine ⟨?_, ?_, ?_⟩
  · intro c hc heq
    simp only [pipelineUpdate, hc]
    simp [heq, applyInput]
  · intro hc
    simp only [pipelineUpdate, hc]
    simp [applyInput]
  · intro c hc hne
    simp only [pipelineUpdate, hc]
    simp [hne, applyInput]

/-- C2 witness: on the concrete ready pipeline, an update whose config is
the same mapping with reordered keys creates no version, and an update
with a changed value bumps `current_version` from 1 to 2. -/
theorem updateConfig_versioning_witness :
    storeReady.pipeline.isDeleted = false ∧
    (pipelineUpdate storeReady
        { PipelineInput.empty with config := some configAReordered }
        (some 1)).versions = storeReady.versions ∧
    (pipelineUpdate storeReady
        { PipelineInput.empty with config := some configB }
        (some 1)).pipeline.currentVersion =
      storeReady.pipeline.currentVersion + 1 :=
  ⟨rfl,
   ((updateConfig_versioning storeReady
      { PipelineInput.empty with config := some configAReordered }
      (some 1) rfl).1 configAReordered rfl
      (by simp [Json.pyEq, Json.beq, Json.beqKVList, Json.canon,
        Json.sortByKey, Json.insertByKey, Json.strLe, Json.charsLe,
        configA, configAReordered, storeReady, pipelineReady])).1,
   ((updateConfig_versioning storeReady
      { PipelineInput.empty with config := some configB }
      (some 1) rfl).2.2 configB rfl
      (by simp [Json.pyEq, Json.beq, Json.beqKVList, Json.canon,
        Json.sortByKey, Json.insertByKey, Json.strLe, Json.charsLe,
        configA, configB, storeReady, pipelineReady])).1⟩

/-- C3.  With the pipeline lifecycle state in `{ready, completed, failed}`,
a trigger resolves the current version: when no version row carries
`current_version` it fails with the DRF-validation-style HTTP 400 error
and the handler returns before any write; otherwise it returns exactly
one new `queued` execution bound to that version and the store with that
execution prepended and the lifecycle state flipped to `running`. -/
theorem trigger_success (s : PipeStore) (t : TriggerType) (u : Option Nat)
    (hready : s.pipeline.state = .ready ∨ s.pipeline.state = .completed ∨
      s.pipeline.state = .failed) :
    (s.findCurrentVersion = none →
      execute s t u =
        .error { status := 400, error := "Pipeline has no valid version" }) ∧
    (∀ v, s.findCurrentVersion = some v →
      execute s t u =
        .ok ({ s with
                executions :=
                  { state := .queued, triggerType := t, triggeredBy := u,
                    pipelineVersion := some v.versionNumber } :: s.executions,
                pipeline := { s.pipeline with state := .running } },
             { state := .queued, triggerType := t, triggeredBy := u,
               pipelineVersion := some v.versionNumber })) := by
  have hnr : ¬(s.pipeline.state = .running) := by
    rcases hready with h | h | h <;> simp [h]
  constructor
  · intro hnone
    unfold execute
    rw [if_neg hnr, if_neg (not_not_intro hready), hnone]
  · intro v hv
    unfold execute
    rw [if_neg hnr, if_neg (not_not_intro hready), hv]

/-- C3 witness: triggering the concrete ready pipeline creates the queued
execution bound to version 1 and sets the pipeline running. -/
theorem trigger_success_witness :
    (storeReady.pipeline.state = .ready ∨
      storeReady.pipeline.state = .completed ∨
      storeReady.pipeline.state = .failed) ∧
    execute storeReady .manual (some 1) = .ok (storeRunning, execQueued) :=
  ⟨Or.inl rfl,
   (trigger_success storeReady .manual (some 1) (Or.inl rfl)).2 versionOne rfl⟩

/-- C6.  `create`: a payload declaring `scheduled` mode without a schedule
expression is rejected by `PipelineSerializer.validate` with a
`ValidationError` (HTTP 400) and nothing is created; any payload passing
validation yields a new pipeline in state `draft` with
`current_version = 1`, no executions, and exactly one initial
`PipelineVersion` numbered 1 whose snapshot is the given config (the
model default `{}` when the payload has no config key). -/
theorem create_initial_version (d : PipelineInput) (u : Option Nat) :
    (d.executionMode = some .scheduled →
      scheduleMissing d.scheduleExpression = true →
      pipelineCreate d u =
        .error { status := 400,
                 error := "Schedule expression is required for scheduled pipelines" }) ∧
    (pipelineInputValid d = true →
      ∃ s, pipelineCreate d u = .ok s ∧
        s.pipeline.state = .draft ∧
        s.pipeline.currentVersion = 1 ∧
        s.pipeline.config = d.config.getD (Json.obj []) ∧
        s.versions =
          [{ versionNumber := 1,
             configSnapshot := d.config.getD (Json.obj []),
             createdBy := u,
             changeDescription := "Initial version" }] ∧
        s.executions = []) := by
  constructor
  · intro hm hs
    unfold pipelineCreate
    rw [if_pos]
    simp [pipelineInputValid, hm, hs]
  · intro hv
    unfold pipelineCreate
    rw [if_neg (by simp [hv])]
    exact ⟨_, rfl, rfl, rfl, rfl, rfl, rfl⟩

/-- C6 witness: the scheduled-without-expression payload is rejected; the
valid payload creates the draft pipeline with its version-1 snapshot. -/
theorem create_initial_version_witness :
    pipelineCreate inputSchedNoExpr (some 1) =
      .error { status := 400,
               error := "Schedule expression is required for scheduled pipelines" } ∧
    ∃ s, pipelineCreate inputValidCreate (some 1) = .ok s ∧
      s.pipeline.state = .draft ∧
      s.pipeline.currentVersion = 1 ∧
      s.pipeline.config = configA ∧
      s.versions =
        [{ versionNumber := 1, configSnapshot := configA,
           createdBy := some 1, changeDescription := "Initial version" }] ∧
      s.executions = [] :=
  ⟨(create_initial_version inputSchedNoExpr (some 1)).1 rfl rfl,
   (create_initial_version inputValidCreate (some 1)).2 rfl⟩

end Novem

namespace Novem

/-- C1, the claim as stated is false at a concrete input: after one
successful trigger on the ready pipeline its execution is still
non-terminal, and the second trigger is indeed rejected with no new
execution — but the rejection is HTTP 400 (`'Pipeline is already
running'`), not the 409-equivalent the spec's `Conflict` taxonomy
prescribes. -/
theorem trigger_second_call_status_not_conflict :
    execute storeReady .manual (some 1) = .ok (storeRunning, execQueued) ∧
    execQueued.state.isTerminal = false ∧
    execute storeRunning .manual (some 1) =
      .error { status := 400, error := "Pipeline is already running" } ∧
    (400 : Nat) ≠ specConflictStatus :=
  ⟨rfl, rfl, rfl, by decide⟩

/-- C1 as amended: whenever the single-active invariant holds and some
execution of the pipeline is non-terminal, any further trigger call fails
with an HTTP 400 error (and, the error modelling the handler's early
return, creates no execution); and the invariant — at most one
non-terminal execution per pipeline — is preserved by every operation the
pipeline views expose, so it holds at all times. -/
theorem trigger_single_active_execution (s : PipeStore) (hInv : PipeInv s) :
    (∀ e ∈ s.executions, e.state.isTerminal = false →
      ∀ t u, ∃ err, execute s t u = .error err ∧ err.status = 400) ∧
    (∀ s', Step s s' → PipeInv s') := by
  constructor
  · intro e he hnt t u
    have hns := hInv.2 e he hnt
    by_cases hr : s.pipeline.state = .running
    · refine ⟨⟨400, "Pipeline is already running"⟩, ?_, rfl⟩
      unfold execute
      rw [if_pos hr]
    · refine ⟨⟨400, "Pipeline cannot be executed in this state"⟩, ?_, rfl⟩
      unfold execute
      rw [if_neg hr, if_pos hns]
  · intro s' hstep
    cases hstep with
    | execOk t u e h =>
      obtain ⟨hstate, hq, hs'⟩ := execute_eq_ok h
      have hzero : s.executions.countP (fun a => !a.state.isTerminal) = 0 := by
        rw [List.countP_eq_zero]
        intro a ha hcon
        exact hInv.2 a ha (by simpa using hcon) hstate
      constructor
      · subst hs'
        show (e :: s.executions).countP (fun a => !a.state.isTerminal) ≤ 1
        rw [List.countP_cons, hzero, hq]
        simp [ExecutionState.isTerminal]
      · subst hs'
        intro a _ _
        simp
    | execErr t u err h => exact hInv
    | validate =>
      refine ⟨hInv.1, ?_⟩
      intro a ha _
      simp [validateAction]
    | update d u =>
      obtain ⟨hst, hex⟩ := pipelineUpdate_state_executions s d u
      constructor
      · unfold nonTerminalCount
        rw [hex]
        exact hInv.1
      · intro a ha hant
        rw [hst]
        exact hInv.2 a (hex ▸ ha) hant
    | estimate =>
      refine ⟨hInv.1, ?_⟩
      intro a ha hant
      simpa [estimateResources] using hInv.2 a ha hant

/-- C1 witness: the post-trigger store satisfies the invariant, and the
second trigger call there fails with status 400. -/
theorem trigger_single_active_execution_witness :
    PipeInv storeRunning ∧
    execQueued ∈ storeRunning.executions ∧
    execQueued.state.isTerminal = false ∧
    ∃ err, execute storeRunning .manual (some 1) = .error err ∧
      err.status = 400 := by
  have hInv : PipeInv storeRunning := by
    constructor
    · decide
    · intro e he _
      have : e = execQueued := by simpa [storeRunning] using he
      subst this
      simp [storeRunning, pipelineReady]
  exact ⟨hInv, by simp [storeRunning], rfl,
    (trigger_single_active_execution storeRunning hInv).1 execQueued
      (by simp [storeRunning]) rfl .manual (some 1)⟩

end Novem

namespace Novem

/-- C7 (code-bug evidence): deleting the pipeline that has a queued —
non-terminal — execution goes through the inherited DRF default destroy:
no Conflict check fires, the result is a hard delete leaving no rows
(`none`), so the version/execution history is removed rather than
retained behind an `is_deleted` mark — the soft-delete fields the model
declares are never written. -/
theorem destroy_ignores_active_execution :
    storeRunning.executions.countP (fun e => !e.state.isTerminal) = 1 ∧
    storeRunning.pipeline.isDeleted = false ∧
    pipelineDestroy storeRunning = .ok none :=
  ⟨rfl, rfl, rfl⟩

/-- C4, the claim as stated is false at a concrete input: deleting the
sole version of a dataset is indeed rejected with nothing deleted, but
with HTTP 400, not the 409-equivalent the spec's `Conflict` taxonomy
prescribes. -/
theorem delete_sole_version_status_not_conflict :
    deleteVersion dstoreSole 1 =
      .error { status := 400, error := "Cannot delete the only version" } ∧
    (400 : Nat) ≠ specConflictStatus :=
  ⟨rfl, by decide⟩

/-- C4 as amended: for an existing version row, deleting the dataset's
sole version or its current version fails with an HTTP 400 error (the
handler returning before the delete, so nothing is removed); deleting any
other existing version succeeds, removes exactly that row, and leaves the
dataset row — in particular `current_version` — and the query log
untouched. -/
theorem delete_version_behaviour (s : DatasetStore) (n : Nat)
    (v : DatasetVersion)
    (hfind : s.versions.find? (fun w => w.versionNumber == n) = some v) :
    (s.versions.length = 1 →
      deleteVersion s n =
        .error { status := 400, error := "Cannot delete the only version" }) ∧
    (s.versions.length ≠ 1 → v.versionNumber = s.dataset.currentVersion →
      deleteVersion s n =
        .error { status := 400,
                 error := "Cannot delete the current version. Set a different version as current first." }) ∧
    (s.versions.length ≠ 1 → v.versionNumber ≠ s.dataset.currentVersion →
      ∃ s', deleteVersion s n = .ok s' ∧
        s'.dataset = s.dataset ∧
        s'.queries = s.queries ∧
        s'.versions = s.versions.eraseP (fun w => w.versionNumber == n) ∧
        s'.versions.length + 1 = s.versions.length ∧
        (∀ w ∈ s.versions, w.versionNumber ≠ n → w ∈ s'.versions) ∧
        (∀ w ∈ s'.versions, w ∈ s.versions)) := by
  refine ⟨?_, ?_, ?_⟩
  · intro hlen
    unfold deleteVersion
    rw [hfind]
    simp only [if_pos hlen]
  · intro hlen hcur
    unfold deleteVersion
    rw [hfind]
    simp only [if_neg hlen, if_pos hcur]
  · intro hlen hcur
    refine ⟨{ s with
        versions := s.versions.eraseP (fun w => w.versionNumber == n) },
      ?_, rfl, rfl, rfl, ?_, ?_, ?_⟩
    · unfold deleteVersion
      rw [hfind]
      simp only [if_neg hlen, if_neg hcur]
    · have hv := List.mem_of_find?_eq_some hfind
      have hp := List.find?_some hfind
      have hlt := List.length_pos_of_mem hv
      have := @List.length_eraseP_of_mem _ s.versions v
        (fun w => w.versionNumber == n) hv hp
      simp only
      omega
    · intro w hw hne
      exact (List.mem_eraseP_of_neg (by simp [hne])).mpr hw
    · intro w hw
      exact List.mem_of_mem_eraseP hw

/-- C4 witness: on the two-version dataset whose current version is 1,
deleting version 1 is rejected with 400 and deleting version 2 succeeds
with `current_version` untouched. -/
theorem delete_version_behaviour_witness :
    deleteVersion dstoreTwo 1 =
      .error { status := 400,
               error := "Cannot delete the current version. Set a different version as current first." } ∧
    ∃ s', deleteVersion dstoreTwo 2 = .ok s' ∧
      s'.dataset = dstoreTwo.dataset ∧
      s'.queries = dstoreTwo.queries ∧
      s'.versions = dstoreTwo.versions.eraseP (fun w => w.versionNumber == 2) ∧
      s'.versions.length + 1 = dstoreTwo.versions.length ∧
      (∀ w ∈ dstoreTwo.versions, w.versionNumber ≠ 2 → w ∈ s'.versions) ∧
      (∀ w ∈ s'.versions, w ∈ dstoreTwo.versions) :=
  ⟨(delete_version_behaviour dstoreTwo 1 dvOne rfl).2.1 (by decide) rfl,
   (delete_version_behaviour dstoreTwo 2 dvTwo rfl).2.2 (by decide) (by decide)⟩

/-- C5.  The schema fingerprint is a pure function of the canonicalized
schema: two versions whose schemas have the same canonical form — same
columns and types, keys of the input mapping in any order — receive equal
fingerprints; and `save` computes the hash only when none is stored, so a
non-empty stored fingerprint survives every later save unchanged. -/
theorem schema_fingerprint_policy (v w u : DatasetVersion)
    (hsem : Json.canon v.schema = Json.canon w.schema)
    (hset : u.schemaHash ≠ "") :
    v.calculate_schema_hash = w.calculate_schema_hash ∧
    (DatasetVersion.save u).schemaHash = u.schemaHash := by
  constructor
  · unfold DatasetVersion.calculate_schema_hash jsonDumpsSorted
    rw [hsem]
  · have hbeq : (u.schemaHash == "") = false := by simpa using hset
    unfold DatasetVersion.save
    split
    · rename_i hcond
      rw [hbeq] at hcond
      simp at hcond
    · dsimp only
      split
      · split
        · split <;> rfl
        · rfl
      · rfl

/-- C5 witness: the concrete schema written with the two key orders hashes
identically, and a version whose fingerprint is already set keeps it
across a save. -/
theorem schema_fingerprint_policy_witness :
    Json.canon dvOne.schema = Json.canon dvOneReordered.schema ∧
    dvHashed.schemaHash ≠ "" ∧
    dvOne.calculate_schema_hash = dvOneReordered.calculate_schema_hash ∧
    (DatasetVersion.save dvHashed).schemaHash = dvHashed.schemaHash := by
  have h1 : Json.canon dvOne.schema = Json.canon dvOneReordered.schema := by
    simp [dvOne, dvOneReordered, schemaA, schemaAReordered, Json.canon,
      Json.sortByKey, Json.insertByKey, Json.strLe, Json.charsLe]
  have h2 : dvHashed.schemaHash ≠ "" := by simp [dvHashed, dvOne]
  obtain ⟨ha, hb⟩ := schema_fingerprint_policy dvOne dvOneReordered dvHashed h1 h2
  exact ⟨h1, h2, ha, hb⟩

/-- C8, the claim as stated is false at a concrete input: the scenario
payload with `kind=pipeline` and `source_pipeline` unset passes the
serializer's validation and yields an edge — no `ValidationError` is
raised. -/
theorem lineage_pipeline_unset_accepted :
    lineagePipelineUnset.sourcePipeline = none ∧
    recordEdge lineagePipelineUnset =
      .ok { sourceType := "pipeline", sourceDataSource := none,
            sourcePipeline := none, sourceDatasetVersion := none,
            transformationDetails := Json.obj [] } :=
  ⟨rfl, rfl⟩

/-- C8 as amended: recording a lineage edge validates only that the kind
(`source_type`) is one of `source`/`pipeline`/`dataset`; no check requires
an upstream-reference field to be populated or to match the kind, and on
success the three reference fields are copied into the row exactly as
given — populated or not. -/
theorem lineage_validation_kind_only (i : LineageInput) :
    ((∃ e, recordEdge i = .ok e) ↔
      (i.sourceType = "source" ∨ i.sourceType = "pipeline" ∨
        i.sourceType = "dataset")) ∧
    (lineageValid i = true →
      recordEdge i =
        .ok { sourceType := i.sourceType,
              sourceDataSource := i.sourceDataSource,
              sourcePipeline := i.sourcePipeline,
              sourceDatasetVersion := i.sourceDatasetVersion,
              transformationDetails :=
                i.transformationDetails.getD (Json.obj []) }) := by
  have hval : lineageValid i = true ↔
      (i.sourceType = "source" ∨ i.sourceType = "pipeline" ∨
        i.sourceType = "dataset") := by
    simp [lineageValid, List.contains_cons, Bool.or_eq_true, beq_iff_eq]
  constructor
  · constructor
    · rintro ⟨e, he⟩
      by_cases hv : lineageValid i = true
      · exact hval.mp hv
      · rw [recordEdge, if_neg hv] at he
        simp at he
    · intro hm
      exact ⟨_, by rw [recordEdge, if_pos (hval.mpr hm)]⟩
  · intro hv
    rw [recordEdge, if_pos hv]

/-- C9.  The scheduled listing returns exactly the non-deleted pipelines
(of the caller's projects, with no extra query-parameter narrowing) whose
mode is `scheduled`, state is `ready` and `next_scheduled_run` is set and
`<= now`; and the handler only reads — the post-state of the pipeline
table is the table it was given, every field of every pipeline included. -/
theorem scheduled_selection (db : List Pipeline) (up : List Nat) (now : Nat)
    (p : Pipeline) (hall : ∀ q ∈ db, q.project ∈ up) :
    (p ∈ (scheduledAction db up none none now).1 ↔
      (p ∈ db ∧ p.isDeleted = false ∧ p.executionMode = .scheduled ∧
        p.state = .ready ∧ ∃ t, p.nextScheduledRun = some t ∧ t ≤ now)) ∧
    (scheduledAction db up none none now).2 = db := by
  refine ⟨?_, rfl⟩
  simp only [scheduledAction, getQueryset, List.mem_filter, Bool.and_eq_true,
    beq_iff_eq, Bool.not_eq_true']
  constructor
  · rintro ⟨⟨hmem, hup, hdel⟩, ⟨hmode, hstate⟩, hnext⟩
    refine ⟨hmem, hdel, hmode, hstate, ?_⟩
    revert hnext
    cases p.nextScheduledRun with
    | none => intro hnext; simp at hnext
    | some t => intro hnext; exact ⟨t, rfl, by simpa using hnext⟩
  · rintro ⟨hmem, hdel, hmode, hstate, t, ht, hle⟩
    refine ⟨⟨hmem, ?_, hdel⟩, ⟨hmode, hstate⟩, ?_⟩
    · simpa [List.contains_iff_exists_mem_beq] using hall p hmem
    · rw [ht]
      simpa using hle

/-- C9 witness: with one due scheduled pipeline and one manual pipeline in
the caller's project, the selection at time 100 contains exactly the due
one and the table is unchanged. -/
theorem scheduled_selection_witness :
    (pipelineDue ∈
        (scheduledAction [pipelineDue, pipelineManual] [1] none none 100).1 ↔
      (pipelineDue ∈ [pipelineDue, pipelineManual] ∧
        pipelineDue.isDeleted = false ∧
        pipelineDue.executionMode = .scheduled ∧
        pipelineDue.state = .ready ∧
        ∃ t, pipelineDue.nextScheduledRun = some t ∧ t ≤ 100)) ∧
    (scheduledAction [pipelineDue, pipelineManual] [1] none none 100).2 =
      [pipelineDue, pipelineManual] :=
  scheduled_selection [pipelineDue, pipelineManual] [1] 100 pipelineDue
    (by
      intro q hq
      rcases List.mem_cons.mp hq with h | h
      · subst h; decide
      · rcases List.mem_cons.mp h with h2 | h2
        · subst h2; decide
        · simp at h2)

/-- C10.  When the resolved dataset version exists but its state is not
`ready` (`creating` or `failed`), the query endpoint rejects the request —
whatever the SQL payload — and the store is returned unchanged: in
particular no `DatasetQuery` audit row is created, and no query runs
(the handler returns before the compute-engine call).  Only `ready`
versions reach the query path. -/
theorem query_requires_ready (s : DatasetStore) (vp : Option Nat)
    (q : Option String) (u : Option Nat) (v : DatasetVersion)
    (hfind : s.versions.find?
      (fun w => w.versionNumber == vp.getD s.dataset.currentVersion) = some v)
    (hstate : v.state ≠ .ready) :
    (queryAction s vp q u).1 = s ∧
    ∃ err, (queryAction s vp q u).2 = .error err := by
  cases hq : sqlMissing q with
  | true => simp [queryAction, hq]
  | false =>
    unfold queryAction
    rw [hq]
    simp only [Bool.false_eq_true, if_false]
    rw [hfind]
    dsimp only
    constructor
    · rw [if_pos hstate]
    · exact ⟨_, by rw [if_pos hstate]⟩

/-- C10 witness: querying the dataset whose sole (current) version is
still `creating` is rejected and logs nothing. -/
theorem query_requires_ready_witness :
    (queryAction dstoreCreating none (some "select 1") (some 1)).1 =
      dstoreCreating ∧
    ∃ err, (queryAction dstoreCreating none (some "select 1") (some 1)).2 =
      .error err :=
  query_requires_ready dstoreCreating none (some "select 1") (some 1)
    dvCreating rfl (by decide)

end Novem

namespace Novem

/-- C8 witness at the concrete payload: the pipeline-kind edge with no
upstream reference populated satisfies the kind-only validation and is
recorded verbatim. -/
theorem lineage_validation_kind_only_witness :
    ((∃ e, recordEdge lineagePipelineUnset = .ok e) ↔
      (lineagePipelineUnset.sourceType = "source" ∨
        lineagePipelineUnset.sourceType = "pipeline" ∨
        lineagePipelineUnset.sourceType = "dataset")) ∧
    recordEdge lineagePipelineUnset =
      .ok { sourceType := lineagePipelineUnset.sourceType,
            sourceDataSource := lineagePipelineUnset.sourceDataSource,
            sourcePipeline := lineagePipelineUnset.sourcePipeline,
            sourceDatasetVersion := lineagePipelineUnset.sourceDatasetVersion,
            transformationDetails :=
              lineagePipelineUnset.transformationDetails.getD (Json.obj []) } :=
  ⟨(lineage_validation_kind_only lineagePipelineUnset).1,
   (lineage_validation_kind_only lineagePipelineUnset).2 rfl⟩

end Novem
